import Mathlib

/-!
# Verification of the "La Nonna" restaurant backend

Shallow embedding of the repository (src/main.py, src/schemas.py) together
with a model of the storage gateway (`database.py`, referenced but not part
of the sources; modelled from the specification where needed).

The embedding covers:
* the JSON value / document model used by the store;
* the four business record shapes of `schemas.py` (Reservation,
  EventRequest, ContactMessage, Testimonial) with their pydantic
  field constraints, as validation functions;
* the storage gateway operations `create_document` / `get_documents`
  (modelled from the spec, since `database.py` is not in the sources);
* the route handlers of `main.py`.
-/

namespace LaNonna

/-- A flat JSON value as it appears in stored documents: a string, an
integer, a store object-identifier, or null.  (The documents handled by
the system are flat, so no nesting is needed.) -/
inductive JVal where
  | s (v : String)
  | i (v : Int)
  | oid (v : Nat)
  | null
deriving DecidableEq, Repr

/-- Modelled from the spec: the string form of the store-generated object
identifier numbered `n` (the spec says only that insert "returns a newly
generated unique identifier"); we render the counter in decimal with a
leading marker character, which makes the identifier non-empty and
injective in `n`. -/
def genId (n : Nat) : String :=
  ⟨'d' :: (Nat.digits 10 n).reverse.map Nat.digitChar⟩

/-- Python `str()` applied to a JSON value; on an object identifier it
yields the identifier's string form. -/
def JVal.toStr : JVal → String
  | .s v => v
  | .i v => toString v
  | .oid v => genId v
  | .null => "None"

/-- A document: an ordered association list of keys to values, mirroring a
Python dict (keys unique, insertion-ordered). -/
abbrev Doc := List (String × JVal)

/-- Key membership test, Python `"k" in d`. -/
def Doc.hasKey (d : Doc) (k : String) : Bool :=
  d.any (fun kv => kv.1 == k)

/-- Lookup, Python `d[k]` (first binding). -/
def Doc.get? (d : Doc) (k : String) : Option JVal :=
  (d.find? (fun kv => kv.1 == k)).map (·.2)

/-- Python `d.pop(k)`: the document with key `k` removed. -/
def Doc.erase (d : Doc) (k : String) : Doc :=
  d.filter (fun kv => kv.1 ≠ k)

/-- Python `d[k] = v`: replace the binding in place when the key exists,
append it otherwise (dict update semantics). -/
def Doc.set (d : Doc) (k : String) (v : JVal) : Doc :=
  if d.hasKey k then
    d.map (fun kv => if kv.1 == k then (k, v) else kv)
  else
    d ++ [(k, v)]

/-! ## Record shapes (src/schemas.py)

Each pydantic model is embedded as a structure holding the typed field
values, plus a validation function enforcing the `Field` constraints.
Email-format validation (pydantic `EmailStr`) is delegated to an abstract
predicate `emailOk`, quantified in the theorems, since its implementation
lives in a third-party library.  Dates and times are opaque values here
(no constraint in the source mentions their content). -/

/-- A calendar date as parsed by pydantic (content unconstrained). -/
structure DateV where
  y : Nat
  m : Nat
  d : Nat
deriving DecidableEq, Repr

/-- A time of day as parsed by pydantic (content unconstrained). -/
structure TimeV where
  hh : Nat
  mm : Nat
deriving DecidableEq, Repr

/-- `class Reservation(BaseModel)` of src/schemas.py:
name (min_length=2), email (EmailStr), phone (min_length=6,
max_length=30), date, time, guests (ge=1, le=20),
notes (Optional, max_length=500). -/
structure Reservation where
  name : String
  email : String
  phone : String
  date : DateV
  time : TimeV
  guests : Int
  notes : Option String
deriving DecidableEq, Repr

/-- Declared field names of `Reservation`, in declaration order
(pydantic `model_fields.keys()`). -/
def Reservation.model_fields : List String :=
  ["name", "email", "phone", "date", "time", "guests", "notes"]

/-- The fields of a `Reservation` payload whose pydantic constraints
fail, in declaration order. -/
def Reservation.violations (emailOk : String → Bool) (p : Reservation) :
    List String :=
  (if p.name.length < 2 then ["name"] else []) ++
  (if emailOk p.email then [] else ["email"]) ++
  (if p.phone.length < 6 ∨ 30 < p.phone.length then ["phone"] else []) ++
  (if p.guests < 1 ∨ 20 < p.guests then ["guests"] else []) ++
  (match p.notes with
   | some s => if 500 < s.length then ["notes"] else []
   | none => [])

/-- Pydantic validation of a `Reservation` payload: succeed with the
unchanged record when no field constraint fails, otherwise report the
failing fields. -/
def Reservation.validate (emailOk : String → Bool) (p : Reservation) :
    Except (List String) Reservation :=
  if (Reservation.violations emailOk p).isEmpty then .ok p
  else .error (Reservation.violations emailOk p)

/-- ISO rendering of a date, as serialized into a store document. -/
def DateV.toStr (d : DateV) : String :=
  toString d.y ++ "-" ++ toString d.m ++ "-" ++ toString d.d

/-- Rendering of a time of day, as serialized into a store document. -/
def TimeV.toStr (t : TimeV) : String :=
  toString t.hh ++ ":" ++ toString t.mm

/-- Serialization of an optional string field (absent becomes null). -/
def optStr : Option String → LaNonna.JVal
  | some s => .s s
  | none => .null

/-- Serialization of a validated `Reservation` into a store document. -/
def Reservation.serialize (p : Reservation) : Doc :=
  [("name", .s p.name), ("email", .s p.email), ("phone", .s p.phone),
   ("date", .s p.date.toStr), ("time", .s p.time.toStr),
   ("guests", .i p.guests), ("notes", optStr p.notes)]

/-- `class EventRequest(BaseModel)` of src/schemas.py:
name (min_length=2), company (Optional, max_length=120), email (EmailStr),
phone (min_length=6, max_length=30), event_date, event_type,
guests (ge=10, le=200), budget_chf (Optional, ge=0),
message (Optional, max_length=2000). -/
structure EventRequest where
  name : String
  company : Option String
  email : String
  phone : String
  event_date : DateV
  event_type : String
  guests : Int
  budget_chf : Option ℚ
  message : Option String
deriving DecidableEq, Repr

/-- Declared field names of `EventRequest`, in declaration order. -/
def EventRequest.model_fields : List String :=
  ["name", "company", "email", "phone", "event_date", "event_type",
   "guests", "budget_chf", "message"]

/-- The fields of an `EventRequest` payload whose pydantic constraints
fail, in declaration order. -/
def EventRequest.violations (emailOk : String → Bool) (p : EventRequest) :
    List String :=
  (if p.name.length < 2 then ["name"] else []) ++
  (match p.company with
   | some s => if 120 < s.length then ["company"] else []
   | none => []) ++
  (if emailOk p.email then [] else ["email"]) ++
  (if p.phone.length < 6 ∨ 30 < p.phone.length then ["phone"] else []) ++
  (if p.guests < 10 ∨ 200 < p.guests then ["guests"] else []) ++
  (match p.budget_chf with
   | some b => if b < 0 then ["budget_chf"] else []
   | none => []) ++
  (match p.message with
   | some s => if 2000 < s.length then ["message"] else []
   | none => [])

/-- Pydantic validation of an `EventRequest` payload. -/
def EventRequest.validate (emailOk : String → Bool) (p : EventRequest) :
    Except (List String) EventRequest :=
  if (EventRequest.violations emailOk p).isEmpty then .ok p
  else .error (EventRequest.violations emailOk p)

/-- Serialization of a validated `EventRequest` into a store document. -/
def EventRequest.serialize (p : EventRequest) : Doc :=
  [("name", .s p.name), ("company", optStr p.company),
   ("email", .s p.email), ("phone", .s p.phone),
   ("event_date", .s p.event_date.toStr), ("event_type", .s p.event_type),
   ("guests", .i p.guests),
   ("budget_chf", match p.budget_chf with
                  | some b => .s (toString b)
                  | none => .null),
   ("message", optStr p.message)]

/-- `class ContactMessage(BaseModel)` of src/schemas.py:
name (min_length=2), email (EmailStr), phone (Optional, max_length=30),
subject (max_length=120), message (max_length=2000). -/
structure ContactMessage where
  name : String
  email : String
  phone : Option String
  subject : String
  message : String
deriving DecidableEq, Repr

/-- Declared field names of `ContactMessage`, in declaration order. -/
def ContactMessage.model_fields : List String :=
  ["name", "email", "phone", "subject", "message"]

/-- The fields of a `ContactMessage` payload whose pydantic constraints
fail, in declaration order. -/
def ContactMessage.violations (emailOk : String → Bool) (p : ContactMessage) :
    List String :=
  (if p.name.length < 2 then ["name"] else []) ++
  (if emailOk p.email then [] else ["email"]) ++
  (match p.phone with
   | some s => if 30 < s.length then ["phone"] else []
   | none => []) ++
  (if 120 < p.subject.length then ["subject"] else []) ++
  (if 2000 < p.message.length then ["message"] else [])

/-- Pydantic validation of a `ContactMessage` payload. -/
def ContactMessage.validate (emailOk : String → Bool) (p : ContactMessage) :
    Except (List String) ContactMessage :=
  if (ContactMessage.violations emailOk p).isEmpty then .ok p
  else .error (ContactMessage.violations emailOk p)

/-- Serialization of a validated `ContactMessage` into a store document. -/
def ContactMessage.serialize (p : ContactMessage) : Doc :=
  [("name", .s p.name), ("email", .s p.email), ("phone", optStr p.phone),
   ("subject", .s p.subject), ("message", .s p.message)]

/-- `class Testimonial(BaseModel)` of src/schemas.py:
author (min_length=2), rating (ge=1, le=5), content (max_length=600),
source (Optional, unconstrained). -/
structure Testimonial where
  author : String
  rating : Int
  content : String
  source : Option String
deriving DecidableEq, Repr

/-- Declared field names of `Testimonial`, in declaration order. -/
def Testimonial.model_fields : List String :=
  ["author", "rating", "content", "source"]

/-- The fields of a `Testimonial` payload whose pydantic constraints
fail, in declaration order. -/
def Testimonial.violations (p : Testimonial) : List String :=
  (if p.author.length < 2 then ["author"] else []) ++
  (if p.rating < 1 ∨ 5 < p.rating then ["rating"] else []) ++
  (if 600 < p.content.length then ["content"] else [])

/-- Pydantic validation of a `Testimonial` payload. -/
def Testimonial.validate (p : Testimonial) :
    Except (List String) Testimonial :=
  if (Testimonial.violations p).isEmpty then .ok p
  else .error (Testimonial.violations p)

/-- Serialization of a validated `Testimonial` into a store document. -/
def Testimonial.serialize (t : Testimonial) : Doc :=
  [("author", .s t.author), ("rating", .i t.rating),
   ("content", .s t.content),
   ("source", match t.source with | some s => .s s | none => .null)]

/-! ## Storage gateway (database.py, not in the sources)

`main.py` imports `create_document`, `get_documents` and `db` from
`database.py`, which is not part of the sources.  These operations are
modelled from the spec (§4.2). -/

/-- State of the document store: whether it is reachable, the error text
its client raises when an operation fails, a counter from which fresh
identifiers are generated, the stored documents tagged with their
collection name in insertion order, and a log of attempted gateway calls
(one entry per `create_document`/`get_documents` invocation, successful or
not). -/
structure Store where
  reachable : Bool
  failMsg : String
  counter : Nat
  colls : List (String × Doc)
  calls : List String
deriving DecidableEq, Repr

/-- The documents of one collection, in insertion order. -/
def Store.coll (st : Store) (c : String) : List Doc :=
  (st.colls.filter (fun cd => cd.1 == c)).map (·.2)

/-- Modelled from the spec: `create_document(collection_name, record)` of
`database.py` (not in src/).  Serializes the validated record, writes it
into the named collection keyed by a store-generated identifier, and
returns that newly generated identifier; raises (here: `.error` with the
store's error text) when the store cannot be reached.  The attempted call
is logged either way. -/
def create_document (c : String) (d : Doc) (st : Store) :
    Except String String × Store :=
  let logged := { st with calls := st.calls ++ ["insert:" ++ c] }
  if st.reachable then
    (.ok (genId st.counter),
     { logged with
        counter := st.counter + 1,
        colls := st.colls ++ [(c, d ++ [("_id", .oid st.counter)])] })
  else
    (.error st.failMsg, logged)

/-- Modelled from the spec: `get_documents(collection_name, filter, limit)`
of `database.py` (not in src/).  Returns at most `limit` records of the
named collection (empty filter = all) in insertion order; raises when the
store cannot be reached.  The attempted call is logged either way. -/
def get_documents (c : String) (limit : Int) (st : Store) :
    Except String (List Doc) × Store :=
  let logged := { st with calls := st.calls ++ ["fetch:" ++ c] }
  if st.reachable then
    ((.ok ((st.coll c).take limit.toNat)), logged)
  else
    (.error st.failMsg, logged)

/-! ## Route handlers (src/main.py)

Each POST handler is modelled as the full request pipeline: framework
validation of the payload against the schema (a failure yields a 422-class
validation rejection before the handler body runs), then the handler body,
which calls `create_document` and maps a raised store error to an HTTP 500
with the raw error text. -/

/-- Response of a create endpoint: `{ok: true, id: ...}` on success, a 500
with the raw error text as `detail` when the store insert raises, or the
framework's validation rejection (listing the failing fields) when the
payload is invalid. -/
inductive CResponse where
  | okId (id : String)
  | err500 (detail : String)
  | unprocessable (errs : List String)
deriving DecidableEq, Repr

/-- `POST /api/reservations` (`create_reservation` in src/main.py),
including the framework validation step. -/
def create_reservation (emailOk : String → Bool) (payload : Reservation)
    (st : Store) : CResponse × Store :=
  match Reservation.validate emailOk payload with
  | .error errs => (.unprocessable errs, st)
  | .ok p =>
    match create_document "reservation" (Reservation.serialize p) st with
    | (.ok id, st') => (.okId id, st')
    | (.error e, st') => (.err500 e, st')

/-- `POST /api/events` (`create_event_request` in src/main.py). -/
def create_event_request (emailOk : String → Bool) (payload : EventRequest)
    (st : Store) : CResponse × Store :=
  match EventRequest.validate emailOk payload with
  | .error errs => (.unprocessable errs, st)
  | .ok p =>
    match create_document "eventrequest" (EventRequest.serialize p) st with
    | (.ok id, st') => (.okId id, st')
    | (.error e, st') => (.err500 e, st')

/-- `POST /api/contact` (`create_contact_message` in src/main.py). -/
def create_contact_message (emailOk : String → Bool) (payload : ContactMessage)
    (st : Store) : CResponse × Store :=
  match ContactMessage.validate emailOk payload with
  | .error errs => (.unprocessable errs, st)
  | .ok p =>
    match create_document "contactmessage" (ContactMessage.serialize p) st with
    | (.ok id, st') => (.okId id, st')
    | (.error e, st') => (.err500 e, st')

/-- The `_id → id` normalization loop body of `list_testimonials`
(src/main.py lines 94–96): when the fetched document has an `_id` key,
remove it and expose its stringified value under the key `id`. -/
def normalizeId (d : Doc) : Doc :=
  match d.get? "_id" with
  | some v => (d.erase "_id").set "id" (.s v.toStr)
  | none => d

/-- The two hardcoded fallback testimonials of `list_testimonials`
(src/main.py lines 100–103), in their fixed order. -/
def fallback : List Doc :=
  [[("author", .s "Cliente heureux"), ("rating", .i 5),
    ("content", .s "Pizzas savoureuses et accueil chaleureux – un vrai coin d'Italie à Martigny."),
    ("source", .s "Avis client")],
   [("author", .s "Famille B."), ("rating", .i 5),
    ("content", .s "Salle parfaite pour notre fête familiale, service impeccable."),
    ("source", .s "Avis client")]]

/-- `GET /api/testimonials` (`list_testimonials` in src/main.py): fetch up
to `limit` testimonial documents, normalize `_id` to a string `id`, and
return them as `{items: ...}`; if the fetch raises, return the two
hardcoded fallback items instead — in both cases an HTTP 200 whose body is
the `items` list. -/
def list_testimonials (limit : Int) (st : Store) : List Doc × Store :=
  match get_documents "testimonial" limit st with
  | (.ok docs, st') => (docs.map normalizeId, st')
  | (.error _, st') => (fallback, st')

/-- A `{name, fields}` schema descriptor (`class SchemaInfo` in
src/main.py). -/
structure SchemaInfo where
  name : String
  fields : List String
deriving DecidableEq, Repr

/-- `GET /schema` (`schema_info` in src/main.py): the four business record
kinds with their declared field names. -/
def schema_info : List SchemaInfo :=
  [⟨"reservation", Reservation.model_fields⟩,
   ⟨"eventrequest", EventRequest.model_fields⟩,
   ⟨"contactmessage", ContactMessage.model_fields⟩,
   ⟨"testimonial", Testimonial.model_fields⟩]

/-! ## The `/test` diagnostic endpoint (src/main.py `test_database`)

The handler probes the process's database handle inside nested
try/except blocks.  The probe that can raise — `db.list_collection_names()`
— is modelled as an `Except`; the handler is written in the `Except` monad
so that an uncaught exception would propagate as `.error`, and the claim
that the endpoint never raises becomes the statement that the result is
always `.ok`. -/

/-- The process's database handle `db` as seen by `test_database`: its
`name` attribute (absent triggers the `getattr` default) and the outcome
of `list_collection_names()` (which may raise). -/
structure DbHandle where
  name : Option String
  listCollections : Except String (List String)

/-- Process environment for `/test`: the optional database handle and
whether the `DATABASE_URL` / `DATABASE_NAME` environment variables are
set. -/
structure Env where
  db : Option DbHandle
  dbUrlSet : Bool
  dbNameSet : Bool

/-- The response dict built by `test_database` (fixed keys). -/
structure TestResponse where
  backend : String
  database : String
  database_url : String
  database_name : String
  connection_status : String
  collections : List String
deriving DecidableEq, Repr

/-- Python `try: body except Exception as e: handler e`. -/
def tryCatch {α : Type} (body : Except String α)
    (handler : String → Except String α) : Except String α :=
  match body with
  | .ok a => .ok a
  | .error e => handler e

/-- `GET /test` (`test_database` in src/main.py): probe the database
handle, catching every exception and rendering it as a status string in
the response; then report the presence of the two environment variables.
A raised-and-uncaught exception would surface as `.error`. -/
def test_database (env : Env) : Except String TestResponse :=
  let r0 : TestResponse :=
    { backend := "✅ Running", database := "❌ Not Available",
      database_url := "None", database_name := "None",
      connection_status := "Not Connected", collections := [] }
  do
  let r ← tryCatch
    (match env.db with
     | some dbh =>
       let r1 := { r0 with
         database := "✅ Available", database_url := "✅ Configured",
         database_name := dbh.name.getD "✅ Connected",
         connection_status := "Connected" }
       tryCatch
         (do
           let cols ← dbh.listCollections
           pure { r1 with collections := cols.take 10,
                          database := "✅ Connected & Working" })
         (fun e =>
           pure { r1 with
             database := "⚠️  Connected but Error: " ++ e.take 50 })
     | none =>
       pure { r0 with database := "⚠️  Available but not initialized" })
    (fun e => pure { r0 with database := "❌ Error: " ++ e.take 50 })
  pure { r with
    database_url := if env.dbUrlSet then "✅ Set" else "❌ Not Set",
    database_name := if env.dbNameSet then "✅ Set" else "❌ Not Set" }

/-! ## The system as a whole

An operation enumeration covering every exposed route (plus direct
testimonial seeding through the gateway, the only way testimonial
documents come to exist), with a step function threading the store.  Used
to state system-wide invariants: append-only storage and freshness of
returned identifiers. -/

/-- One request to the system: the four GET routes, the three POST
routes, the testimonial listing, or a testimonial insert through the
storage gateway. -/
inductive Op where
  | root
  | hello
  | testProbe
  | schemaQuery
  | reserve (p : Reservation)
  | event (p : EventRequest)
  | contact (p : ContactMessage)
  | testimonials (limit : Int)
  | seedTestimonial (t : Testimonial)

/-- Handle one operation: the resulting store, and the identifier the
response carried when the operation was a successful insert. -/
def step (emailOk : String → Bool) (op : Op) (st : Store) :
    Store × Option String :=
  match op with
  | .root => (st, none)
  | .hello => (st, none)
  | .testProbe => (st, none)
  | .schemaQuery => (st, none)
  | .reserve p =>
    match create_reservation emailOk p st with
    | (.okId id, st') => (st', some id)
    | (_, st') => (st', none)
  | .event p =>
    match create_event_request emailOk p st with
    | (.okId id, st') => (st', some id)
    | (_, st') => (st', none)
  | .contact p =>
    match create_contact_message emailOk p st with
    | (.okId id, st') => (st', some id)
    | (_, st') => (st', none)
  | .testimonials limit => ((list_testimonials limit st).2, none)
  | .seedTestimonial t =>
    match Testimonial.validate t with
    | .error _ => (st, none)
    | .ok v =>
      match create_document "testimonial" (Testimonial.serialize v) st with
      | (.ok id, st') => (st', some id)
      | (.error _, st') => (st', none)

/-- Run a sequence of operations from a store, collecting the identifiers
returned by successful inserts, in order. -/
def run (emailOk : String → Bool) : List Op → Store → Store × List String
  | [], st => (st, [])
  | op :: ops, st =>
    let (st', id?) := step emailOk op st
    let (stF, ids) := run emailOk ops st'
    (stF, (id?.toList) ++ ids)

/-! ## Helper lemmas -/

lemma genId_ne_empty (n : Nat) : genId n ≠ "" := by
  intro h
  have hd := congrArg String.data h
  simp [genId] at hd

lemma digitChar_inv {d : Nat} (h : d < 10) :
    (Nat.digitChar d).toNat - 48 = d := by
  interval_cases d <;> decide

lemma map_digitChar_cancel :
    ∀ l : List Nat, (∀ x ∈ l, x < 10) →
      (l.map Nat.digitChar).map (fun c => c.toNat - 48) = l := by
  intro l
  induction l with
  | nil => intro _; rfl
  | cons a t ih =>
    intro h
    simp only [List.map_cons, List.cons.injEq]
    exact ⟨digitChar_inv (h a (List.mem_cons_self a t)),
           ih (fun x hx => h x (List.mem_cons_of_mem a hx))⟩

lemma genId_injective {m n : Nat} (h : genId m = genId n) : m = n := by
  have hd := congrArg String.data h
  simp only [genId, List.cons.injEq, true_and] at hd
  have hm : ∀ x ∈ (Nat.digits 10 m).reverse, x < 10 := fun x hx =>
    Nat.digits_lt_base (by norm_num) (List.mem_reverse.mp hx)
  have hn : ∀ x ∈ (Nat.digits 10 n).reverse, x < 10 := fun x hx =>
    Nat.digits_lt_base (by norm_num) (List.mem_reverse.mp hx)
  have h3 : (Nat.digits 10 m).reverse = (Nat.digits 10 n).reverse := by
    have h4 := congrArg (List.map (fun c => c.toNat - 48)) hd
    rwa [map_digitChar_cancel _ hm, map_digitChar_cancel _ hn] at h4
  exact Nat.digits_inj_iff.mp (List.reverse_injective h3)

lemma Reservation.validate_ok {emailOk : String → Bool} {p q : Reservation}
    (h : Reservation.validate emailOk p = .ok q) : q = p := by
  unfold Reservation.validate at h
  split at h
  · cases h; rfl
  · cases h

lemma reservation_validate_err {emailOk : String → Bool}
    {p : Reservation} (h : Reservation.violations emailOk p ≠ []) :
    Reservation.validate emailOk p =
      .error (Reservation.violations emailOk p) := by
  unfold Reservation.validate
  rw [if_neg]
  simpa using h

lemma Reservation.guests_mem_violations {emailOk : String → Bool}
    {p : Reservation} (h : p.guests < 1 ∨ 20 < p.guests) :
    "guests" ∈ Reservation.violations emailOk p := by
  unfold Reservation.violations
  rw [if_pos h]
  simp [List.mem_append]

lemma eventrequest_validate_err {emailOk : String → Bool}
    {p : EventRequest} (h : EventRequest.violations emailOk p ≠ []) :
    EventRequest.validate emailOk p =
      .error (EventRequest.violations emailOk p) := by
  unfold EventRequest.validate
  rw [if_neg]
  simpa using h

lemma contactmessage_validate_err {emailOk : String → Bool}
    {p : ContactMessage} (h : ContactMessage.violations emailOk p ≠ []) :
    ContactMessage.validate emailOk p =
      .error (ContactMessage.violations emailOk p) := by
  unfold ContactMessage.validate
  rw [if_neg]
  simpa using h

lemma testimonial_validate_err {p : Testimonial}
    (h : Testimonial.violations p ≠ []) :
    Testimonial.validate p = .error (Testimonial.violations p) := by
  unfold Testimonial.validate
  rw [if_neg]
  simpa using h

lemma eventrequest_reject_of_violation {emailOk : String → Bool}
    {p : EventRequest} (st : Store)
    (h : EventRequest.violations emailOk p ≠ []) :
    create_event_request emailOk p st =
      (.unprocessable (EventRequest.violations emailOk p), st) := by
  unfold create_event_request
  rw [eventrequest_validate_err h]

lemma contactmessage_reject_of_violation {emailOk : String → Bool}
    {p : ContactMessage} (st : Store)
    (h : ContactMessage.violations emailOk p ≠ []) :
    create_contact_message emailOk p st =
      (.unprocessable (ContactMessage.violations emailOk p), st) := by
  unfold create_contact_message
  rw [contactmessage_validate_err h]

/-! ## Claim theorems -/

/-- C1: a reservation payload whose `guests` value lies outside [1,20] is
rejected by `POST /api/reservations` as a validation error (the failing
`guests` field is reported), the store is left untouched — in particular
no gateway call is logged — and no validated (hence possibly clamped)
instance is ever produced. -/
theorem reservation_guests_out_of_range_rejected
    (emailOk : String → Bool) (st : Store) (p : Reservation)
    (h : p.guests < 1 ∨ 20 < p.guests) :
    create_reservation emailOk p st =
      (.unprocessable (Reservation.violations emailOk p), st) ∧
    "guests" ∈ Reservation.violations emailOk p ∧
    (∀ q, Reservation.validate emailOk p ≠ Except.ok q) := by
  have hmem := @Reservation.guests_mem_violations emailOk p h
  have hne : Reservation.violations emailOk p ≠ [] := List.ne_nil_of_mem hmem
  have hv := reservation_validate_err hne
  refine ⟨?_, hmem, ?_⟩
  · unfold create_reservation
    rw [hv]
  · intro q hq
    rw [hv] at hq
    cases hq

/-- Witness for C1 at a concrete payload with `guests = 0`. -/
theorem reservation_guests_out_of_range_rejected_witness :
    create_reservation (fun _ => true)
      { name := "Jo", email := "jo@x.com", phone := "123456",
        date := ⟨2026, 1, 1⟩, time := ⟨19, 0⟩, guests := 0, notes := none }
      { reachable := true, failMsg := "boom", counter := 0,
        colls := [], calls := [] } =
      (.unprocessable
        (Reservation.violations (fun _ => true)
          { name := "Jo", email := "jo@x.com", phone := "123456",
            date := ⟨2026, 1, 1⟩, time := ⟨19, 0⟩, guests := 0,
            notes := none }),
       { reachable := true, failMsg := "boom", counter := 0,
         colls := [], calls := [] }) ∧
    "guests" ∈ Reservation.violations (fun _ => true)
      { name := "Jo", email := "jo@x.com", phone := "123456",
        date := ⟨2026, 1, 1⟩, time := ⟨19, 0⟩, guests := 0, notes := none } ∧
    (∀ q, Reservation.validate (fun _ => true)
      { name := "Jo", email := "jo@x.com", phone := "123456",
        date := ⟨2026, 1, 1⟩, time := ⟨19, 0⟩, guests := 0, notes := none } ≠
      Except.ok q) :=
  reservation_guests_out_of_range_rejected _ _ _ (Or.inl (by decide))

/-- C2: when the store is unreachable (every fetch raises), GET
/api/testimonials still answers — with the 200 body whose `items` are
exactly the two hardcoded fallback testimonial records, in their fixed
order, for every `limit`; the store error never reaches the client. -/
theorem testimonials_fallback_on_store_error
    (st : Store) (limit : Int) (h : st.reachable = false) :
    (list_testimonials limit st).1 =
      [[("author", .s "Cliente heureux"), ("rating", .i 5),
        ("content", .s "Pizzas savoureuses et accueil chaleureux – un vrai coin d'Italie à Martigny."),
        ("source", .s "Avis client")],
       [("author", .s "Famille B."), ("rating", .i 5),
        ("content", .s "Salle parfaite pour notre fête familiale, service impeccable."),
        ("source", .s "Avis client")]] := by
  unfold list_testimonials get_documents
  rw [h]
  rfl

/-- Witness for C2 at a concrete unreachable store and the default
limit 6. -/
theorem testimonials_fallback_on_store_error_witness :
    (list_testimonials 6
      { reachable := false, failMsg := "connection refused", counter := 0,
        colls := [], calls := [] }).1 =
      [[("author", .s "Cliente heureux"), ("rating", .i 5),
        ("content", .s "Pizzas savoureuses et accueil chaleureux – un vrai coin d'Italie à Martigny."),
        ("source", .s "Avis client")],
       [("author", .s "Famille B."), ("rating", .i 5),
        ("content", .s "Salle parfaite pour notre fête familiale, service impeccable."),
        ("source", .s "Avis client")]] :=
  testimonials_fallback_on_store_error _ _ rfl

/-- The document as it rests in the store after seeding testimonial `t`
with insert counter `n`: the serialized record keyed by the generated
`_id`. -/
def seededDoc (t : Testimonial) (n : Nat) : Doc :=
  Testimonial.serialize t ++ [("_id", .oid n)]

/-- C3: round-trip — a testimonial inserted while the store is reachable
and then returned by a successful fetch appears in the GET
/api/testimonials items with its `author`, `rating` and `content` fields
unchanged, its `_id` key removed, and its identifier exposed as a string
under the key `id` (equal to the identifier the insert returned). -/
theorem testimonial_roundtrip
    (st : Store) (t : Testimonial) (limit : Int)
    (hre : st.reachable = true)
    (hmem : seededDoc t st.counter ∈
      (((create_document "testimonial" (Testimonial.serialize t) st).2).coll
        "testimonial").take limit.toNat) :
    (create_document "testimonial" (Testimonial.serialize t) st).1 =
      .ok (genId st.counter) ∧
    normalizeId (seededDoc t st.counter) ∈
      (list_testimonials limit
        ((create_document "testimonial" (Testimonial.serialize t) st).2)).1 ∧
    (normalizeId (seededDoc t st.counter)).get? "author" = some (.s t.author) ∧
    (normalizeId (seededDoc t st.counter)).get? "rating" = some (.i t.rating) ∧
    (normalizeId (seededDoc t st.counter)).get? "content" = some (.s t.content) ∧
    (normalizeId (seededDoc t st.counter)).get? "_id" = none ∧
    (normalizeId (seededDoc t st.counter)).get? "id" =
      some (.s (genId st.counter)) := by
  have hre' : ((create_document "testimonial" (Testimonial.serialize t) st).2).reachable = true := by
    unfold create_document
    rw [hre]
    simp
  refine ⟨?_, ?_, ?_, ?_, ?_, ?_, ?_⟩
  · unfold create_document
    rw [hre]
    rfl
  · unfold list_testimonials get_documents
    rw [hre']
    simpa using List.mem_map_of_mem normalizeId hmem
  · rfl
  · rfl
  · rfl
  · rfl
  · rfl

/-- Witness for C3: a concrete testimonial seeded into an empty reachable
store and fetched back with the default limit 6. -/
theorem testimonial_roundtrip_witness :
    (create_document "testimonial"
      (Testimonial.serialize
        { author := "Ada", rating := 5, content := "Ottimo!", source := none })
      { reachable := true, failMsg := "", counter := 0,
        colls := [], calls := [] }).1 = .ok (genId 0) ∧
    normalizeId (seededDoc
      { author := "Ada", rating := 5, content := "Ottimo!", source := none } 0) ∈
      (list_testimonials 6
        ((create_document "testimonial"
          (Testimonial.serialize
            { author := "Ada", rating := 5, content := "Ottimo!", source := none })
          { reachable := true, failMsg := "", counter := 0,
            colls := [], calls := [] }).2)).1 ∧
    (normalizeId (seededDoc
      { author := "Ada", rating := 5, content := "Ottimo!", source := none } 0)).get?
      "author" = some (.s "Ada") ∧
    (normalizeId (seededDoc
      { author := "Ada", rating := 5, content := "Ottimo!", source := none } 0)).get?
      "rating" = some (.i 5) ∧
    (normalizeId (seededDoc
      { author := "Ada", rating := 5, content := "Ottimo!", source := none } 0)).get?
      "content" = some (.s "Ottimo!") ∧
    (normalizeId (seededDoc
      { author := "Ada", rating := 5, content := "Ottimo!", source := none } 0)).get?
      "_id" = none ∧
    (normalizeId (seededDoc
      { author := "Ada", rating := 5, content := "Ottimo!", source := none } 0)).get?
      "id" = some (.s (genId 0)) :=
  testimonial_roundtrip _ _ _ rfl (by decide)

/-- C4: on a valid payload, each of the three POST endpoints
(/api/reservations, /api/events, /api/contact) returns `{ok: true, id}`
with the store-generated identifier when the insert succeeds; when the
store insert raises, each responds 500 whose `detail` is the raw error
text; in both cases exactly one gateway call is attempted (no retry). -/
theorem write_endpoints_ok_or_500
    (emailOk : String → Bool) (st1 st2 : Store)
    (pr qr : Reservation) (pe qe : EventRequest) (pc qc : ContactMessage)
    (hr : Reservation.validate emailOk pr = .ok qr)
    (he : EventRequest.validate emailOk pe = .ok qe)
    (hc : ContactMessage.validate emailOk pc = .ok qc)
    (h1 : st1.reachable = true) (h2 : st2.reachable = false) :
    (create_reservation emailOk pr st1).1 = .okId (genId st1.counter) ∧
    (create_event_request emailOk pe st1).1 = .okId (genId st1.counter) ∧
    (create_contact_message emailOk pc st1).1 = .okId (genId st1.counter) ∧
    (create_reservation emailOk pr st1).2.calls =
      st1.calls ++ ["insert:reservation"] ∧
    (create_event_request emailOk pe st1).2.calls =
      st1.calls ++ ["insert:eventrequest"] ∧
    (create_contact_message emailOk pc st1).2.calls =
      st1.calls ++ ["insert:contactmessage"] ∧
    create_reservation emailOk pr st2 =
      (.err500 st2.failMsg,
       { st2 with calls := st2.calls ++ ["insert:reservation"] }) ∧
    create_event_request emailOk pe st2 =
      (.err500 st2.failMsg,
       { st2 with calls := st2.calls ++ ["insert:eventrequest"] }) ∧
    create_contact_message emailOk pc st2 =
      (.err500 st2.failMsg,
       { st2 with calls := st2.calls ++ ["insert:contactmessage"] }) := by
  refine ⟨?_, ?_, ?_, ?_, ?_, ?_, ?_, ?_, ?_⟩ <;>
    simp [create_reservation, create_event_request, create_contact_message,
          create_document, hr, he, hc, h1, h2]

/-- Witness for C4 at concrete valid payloads, a reachable store and an
unreachable store. -/
theorem write_endpoints_ok_or_500_witness :
    (create_reservation (fun _ => true)
      { name := "Jo", email := "jo@x.com", phone := "123456",
        date := ⟨2026, 1, 1⟩, time := ⟨19, 0⟩, guests := 2, notes := none }
      { reachable := true, failMsg := "", counter := 0,
        colls := [], calls := [] }).1 = .okId (genId 0) ∧
    (create_event_request (fun _ => true)
      { name := "Jo", company := none, email := "jo@x.com",
        phone := "123456", event_date := ⟨2026, 2, 2⟩,
        event_type := "Cocktail", guests := 10, budget_chf := none,
        message := none }
      { reachable := true, failMsg := "", counter := 0,
        colls := [], calls := [] }).1 = .okId (genId 0) ∧
    (create_contact_message (fun _ => true)
      { name := "Jo", email := "jo@x.com", phone := none,
        subject := "Hi", message := "Test" }
      { reachable := true, failMsg := "", counter := 0,
        colls := [], calls := [] }).1 = .okId (genId 0) ∧
    (create_reservation (fun _ => true)
      { name := "Jo", email := "jo@x.com", phone := "123456",
        date := ⟨2026, 1, 1⟩, time := ⟨19, 0⟩, guests := 2, notes := none }
      { reachable := true, failMsg := "", counter := 0,
        colls := [], calls := [] }).2.calls = [] ++ ["insert:reservation"] ∧
    (create_event_request (fun _ => true)
      { name := "Jo", company := none, email := "jo@x.com",
        phone := "123456", event_date := ⟨2026, 2, 2⟩,
        event_type := "Cocktail", guests := 10, budget_chf := none,
        message := none }
      { reachable := true, failMsg := "", counter := 0,
        colls := [], calls := [] }).2.calls = [] ++ ["insert:eventrequest"] ∧
    (create_contact_message (fun _ => true)
      { name := "Jo", email := "jo@x.com", phone := none,
        subject := "Hi", message := "Test" }
      { reachable := true, failMsg := "", counter := 0,
        colls := [], calls := [] }).2.calls = [] ++ ["insert:contactmessage"] ∧
    create_reservation (fun _ => true)
      { name := "Jo", email := "jo@x.com", phone := "123456",
        date := ⟨2026, 1, 1⟩, time := ⟨19, 0⟩, guests := 2, notes := none }
      { reachable := false, failMsg := "server down", counter := 0,
        colls := [], calls := [] } =
      (.err500 "server down",
       { reachable := false, failMsg := "server down", counter := 0,
         colls := [], calls := [] ++ ["insert:reservation"] }) ∧
    create_event_request (fun _ => true)
      { name := "Jo", company := none, email := "jo@x.com",
        phone := "123456", event_date := ⟨2026, 2, 2⟩,
        event_type := "Cocktail", guests := 10, budget_chf := none,
        message := none }
      { reachable := false, failMsg := "server down", counter := 0,
        colls := [], calls := [] } =
      (.err500 "server down",
       { reachable := false, failMsg := "server down", counter := 0,
         colls := [], calls := [] ++ ["insert:eventrequest"] }) ∧
    create_contact_message (fun _ => true)
      { name := "Jo", email := "jo@x.com", phone := none,
        subject := "Hi", message := "Test" }
      { reachable := false, failMsg := "server down", counter := 0,
        colls := [], calls := [] } =
      (.err500 "server down",
       { reachable := false, failMsg := "server down", counter := 0,
         colls := [], calls := [] ++ ["insert:contactmessage"] }) :=
  write_endpoints_ok_or_500 _ _ _ _ _ _ _ _ _ rfl rfl rfl rfl rfl

/-- C5: GET /schema returns exactly four entries, named `reservation`,
`eventrequest`, `contactmessage` and `testimonial`, each listing exactly
the declared field names of its record shape in declaration order. -/
theorem schema_info_exact :
    schema_info.length = 4 ∧
    schema_info.map SchemaInfo.name =
      ["reservation", "eventrequest", "contactmessage", "testimonial"] ∧
    schema_info.map SchemaInfo.fields =
      [["name", "email", "phone", "date", "time", "guests", "notes"],
       ["name", "company", "email", "phone", "event_date", "event_type",
        "guests", "budget_chf", "message"],
       ["name", "email", "phone", "subject", "message"],
       ["author", "rating", "content", "source"]] :=
  ⟨rfl, rfl, rfl⟩

/-- C7 counterexample: the EventRequest shape has no field named
`budget` — the budget field is declared as `budget_chf` (and GET /schema
reports it so). -/
theorem eventrequest_budget_field_cex :
    "budget" ∉ EventRequest.model_fields ∧
    "budget_chf" ∈ EventRequest.model_fields ∧
    (schema_info.map SchemaInfo.fields).contains
      ["name", "company", "email", "phone", "event_date", "event_type",
       "guests", "budget_chf", "message"] = true := by
  refine ⟨by decide, by decide, rfl⟩

/-- C7 (amended): the EventRequest shape has exactly the fields `name`,
`company` (optional), `email`, `phone`, `event_date`, `event_type`,
`guests`, `budget_chf` (optional), `message` (optional); `guests` must
lie in [10,200], `budget_chf` must be ≥ 0 when present, `message` at most
2000 characters when present, and a payload violating any of these is
rejected by POST /api/events before storage. -/
theorem eventrequest_shape_and_constraints
    (emailOk : String → Bool) (st : Store) (p1 p2 p3 : EventRequest)
    (b : ℚ) (m : String)
    (h1 : p1.guests < 10 ∨ 200 < p1.guests)
    (h2 : p2.budget_chf = some b) (h2' : b < 0)
    (h3 : p3.message = some m) (h3' : 2000 < m.length) :
    EventRequest.model_fields =
      ["name", "company", "email", "phone", "event_date", "event_type",
       "guests", "budget_chf", "message"] ∧
    create_event_request emailOk p1 st =
      (.unprocessable (EventRequest.violations emailOk p1), st) ∧
    "guests" ∈ EventRequest.violations emailOk p1 ∧
    create_event_request emailOk p2 st =
      (.unprocessable (EventRequest.violations emailOk p2), st) ∧
    "budget_chf" ∈ EventRequest.violations emailOk p2 ∧
    create_event_request emailOk p3 st =
      (.unprocessable (EventRequest.violations emailOk p3), st) ∧
    "message" ∈ EventRequest.violations emailOk p3 := by
  have hm1 : "guests" ∈ EventRequest.violations emailOk p1 := by
    unfold EventRequest.violations
    rw [if_pos h1]
    simp [List.mem_append]
  have hm2 : "budget_chf" ∈ EventRequest.violations emailOk p2 := by
    unfold EventRequest.violations
    rw [h2]
    simp [List.mem_append, h2']
  have hm3 : "message" ∈ EventRequest.violations emailOk p3 := by
    unfold EventRequest.violations
    rw [h3]
    simp [List.mem_append, h3']
  exact ⟨rfl,
    eventrequest_reject_of_violation st (List.ne_nil_of_mem hm1), hm1,
    eventrequest_reject_of_violation st (List.ne_nil_of_mem hm2), hm2,
    eventrequest_reject_of_violation st (List.ne_nil_of_mem hm3), hm3⟩

/-- Witness for the amended C7 at concrete violating payloads
(`guests = 5`, `budget_chf = -1`, a 2001-character `message`). -/
theorem eventrequest_shape_and_constraints_witness :
    EventRequest.model_fields =
      ["name", "company", "email", "phone", "event_date", "event_type",
       "guests", "budget_chf", "message"] ∧
    create_event_request (fun _ => true)
      { name := "Jo", company := none, email := "jo@x.com",
        phone := "123456", event_date := ⟨2026, 2, 2⟩,
        event_type := "Cocktail", guests := 5, budget_chf := none,
        message := none }
      { reachable := true, failMsg := "", counter := 0,
        colls := [], calls := [] } =
      (.unprocessable
        (EventRequest.violations (fun _ => true)
          { name := "Jo", company := none, email := "jo@x.com",
            phone := "123456", event_date := ⟨2026, 2, 2⟩,
            event_type := "Cocktail", guests := 5, budget_chf := none,
            message := none }),
       { reachable := true, failMsg := "", counter := 0,
         colls := [], calls := [] }) ∧
    "guests" ∈ EventRequest.violations (fun _ => true)
      { name := "Jo", company := none, email := "jo@x.com",
        phone := "123456", event_date := ⟨2026, 2, 2⟩,
        event_type := "Cocktail", guests := 5, budget_chf := none,
        message := none } ∧
    create_event_request (fun _ => true)
      { name := "Jo", company := none, email := "jo@x.com",
        phone := "123456", event_date := ⟨2026, 2, 2⟩,
        event_type := "Cocktail", guests := 10, budget_chf := some (-1),
        message := none }
      { reachable := true, failMsg := "", counter := 0,
        colls := [], calls := [] } =
      (.unprocessable
        (EventRequest.violations (fun _ => true)
          { name := "Jo", company := none, email := "jo@x.com",
            phone := "123456", event_date := ⟨2026, 2, 2⟩,
            event_type := "Cocktail", guests := 10, budget_chf := some (-1),
            message := none }),
       { reachable := true, failMsg := "", counter := 0,
         colls := [], calls := [] }) ∧
    "budget_chf" ∈ EventRequest.violations (fun _ => true)
      { name := "Jo", company := none, email := "jo@x.com",
        phone := "123456", event_date := ⟨2026, 2, 2⟩,
        event_type := "Cocktail", guests := 10, budget_chf := some (-1),
        message := none } ∧
    create_event_request (fun _ => true)
      { name := "Jo", company := none, email := "jo@x.com",
        phone := "123456", event_date := ⟨2026, 2, 2⟩,
        event_type := "Cocktail", guests := 10, budget_chf := none,
        message := some (String.mk (List.replicate 2001 'a')) }
      { reachable := true, failMsg := "", counter := 0,
        colls := [], calls := [] } =
      (.unprocessable
        (EventRequest.violations (fun _ => true)
          { name := "Jo", company := none, email := "jo@x.com",
            phone := "123456", event_date := ⟨2026, 2, 2⟩,
            event_type := "Cocktail", guests := 10, budget_chf := none,
            message := some (String.mk (List.replicate 2001 'a')) }),
       { reachable := true, failMsg := "", counter := 0,
         colls := [], calls := [] }) ∧
    "message" ∈ EventRequest.violations (fun _ => true)
      { name := "Jo", company := none, email := "jo@x.com",
        phone := "123456", event_date := ⟨2026, 2, 2⟩,
        event_type := "Cocktail", guests := 10, budget_chf := none,
        message := some (String.mk (List.replicate 2001 'a')) } :=
  eventrequest_shape_and_constraints _ _ _ _ _ (-1)
    (String.mk (List.replicate 2001 'a'))
    (Or.inl (by decide)) rfl (by norm_num) rfl
    (by simp only [String.length, List.length_replicate]; norm_num)

/-- C10: beyond the spec's data-model table, `ContactMessage` and
`EventRequest` require `name` to have at least 2 characters and
`Testimonial` requires `author` to have at least 2 characters; shorter
values are rejected before storage (the store is left untouched). -/
theorem min_length_two_names_rejected
    (emailOk : String → Bool) (st : Store)
    (pc : ContactMessage) (pe : EventRequest) (t : Testimonial)
    (hc : pc.name.length < 2) (he : pe.name.length < 2)
    (ht : t.author.length < 2) :
    create_contact_message emailOk pc st =
      (.unprocessable (ContactMessage.violations emailOk pc), st) ∧
    "name" ∈ ContactMessage.violations emailOk pc ∧
    create_event_request emailOk pe st =
      (.unprocessable (EventRequest.violations emailOk pe), st) ∧
    "name" ∈ EventRequest.violations emailOk pe ∧
    Testimonial.validate t = .error (Testimonial.violations t) ∧
    "author" ∈ Testimonial.violations t := by
  have hmc : "name" ∈ ContactMessage.violations emailOk pc := by
    unfold ContactMessage.violations
    rw [if_pos hc]
    simp [List.mem_append]
  have hme : "name" ∈ EventRequest.violations emailOk pe := by
    unfold EventRequest.violations
    rw [if_pos he]
    simp [List.mem_append]
  have hmt : "author" ∈ Testimonial.violations t := by
    unfold Testimonial.violations
    rw [if_pos ht]
    simp [List.mem_append]
  exact ⟨contactmessage_reject_of_violation st (List.ne_nil_of_mem hmc), hmc,
    eventrequest_reject_of_violation st (List.ne_nil_of_mem hme), hme,
    testimonial_validate_err (List.ne_nil_of_mem hmt), hmt⟩

/-- Witness for C10 at concrete one-character names. -/
theorem min_length_two_names_rejected_witness :
    create_contact_message (fun _ => true)
      { name := "J", email := "jo@x.com", phone := none,
        subject := "Hi", message := "Test" }
      { reachable := true, failMsg := "", counter := 0,
        colls := [], calls := [] } =
      (.unprocessable
        (ContactMessage.violations (fun _ => true)
          { name := "J", email := "jo@x.com", phone := none,
            subject := "Hi", message := "Test" }),
       { reachable := true, failMsg := "", counter := 0,
         colls := [], calls := [] }) ∧
    "name" ∈ ContactMessage.violations (fun _ => true)
      { name := "J", email := "jo@x.com", phone := none,
        subject := "Hi", message := "Test" } ∧
    create_event_request (fun _ => true)
      { name := "J", company := none, email := "jo@x.com",
        phone := "123456", event_date := ⟨2026, 2, 2⟩,
        event_type := "Cocktail", guests := 10, budget_chf := none,
        message := none }
      { reachable := true, failMsg := "", counter := 0,
        colls := [], calls := [] } =
      (.unprocessable
        (EventRequest.violations (fun _ => true)
          { name := "J", company := none, email := "jo@x.com",
            phone := "123456", event_date := ⟨2026, 2, 2⟩,
            event_type := "Cocktail", guests := 10, budget_chf := none,
            message := none }),
       { reachable := true, failMsg := "", counter := 0,
         colls := [], calls := [] }) ∧
    "name" ∈ EventRequest.violations (fun _ => true)
      { name := "J", company := none, email := "jo@x.com",
        phone := "123456", event_date := ⟨2026, 2, 2⟩,
        event_type := "Cocktail", guests := 10, budget_chf := none,
        message := none } ∧
    Testimonial.validate
      { author := "A", rating := 5, content := "Ottimo!", source := none } =
      .error (Testimonial.violations
        { author := "A", rating := 5, content := "Ottimo!", source := none }) ∧
    "author" ∈ Testimonial.violations
      { author := "A", rating := 5, content := "Ottimo!", source := none } :=
  min_length_two_names_rejected _ _ _ _ _ (by decide) (by decide) (by decide)

/-- C8: GET /test never raises — for every store/environment state the
handler produces a 200 response (`.ok`); in particular, when the database
probe raises, the exception is caught and rendered as a human-readable
status string inside the response body. -/
theorem test_endpoint_never_raises
    (env : Env) (dbh : DbHandle) (e : String)
    (hdb : env.db = some dbh) (hl : dbh.listCollections = .error e) :
    (∀ env' : Env, ∃ r, test_database env' = .ok r) ∧
    test_database env = .ok
      { backend := "✅ Running",
        database := "⚠️  Connected but Error: " ++ e.take 50,
        database_url := if env.dbUrlSet then "✅ Set" else "❌ Not Set",
        database_name := if env.dbNameSet then "✅ Set" else "❌ Not Set",
        connection_status := "Connected",
        collections := [] } := by
  constructor
  · intro env'
    cases hdb' : env'.db with
    | none =>
      exact ⟨{ backend := "✅ Running",
               database := "⚠️  Available but not initialized",
               database_url := if env'.dbUrlSet then "✅ Set" else "❌ Not Set",
               database_name := if env'.dbNameSet then "✅ Set" else "❌ Not Set",
               connection_status := "Not Connected", collections := [] },
             by simp [test_database, tryCatch, hdb', pure, Except.pure,
                      Functor.map, Except.map, Bind.bind, Except.bind]⟩
    | some d =>
      cases hl' : d.listCollections with
      | ok cols =>
        exact ⟨{ backend := "✅ Running",
                 database := "✅ Connected & Working",
                 database_url := if env'.dbUrlSet then "✅ Set" else "❌ Not Set",
                 database_name := if env'.dbNameSet then "✅ Set" else "❌ Not Set",
                 connection_status := "Connected",
                 collections := cols.take 10 },
               by simp [test_database, tryCatch, hdb', hl', pure,
                        Except.pure, Functor.map, Except.map,
                        Bind.bind, Except.bind]⟩
      | error e' =>
        exact ⟨{ backend := "✅ Running",
                 database := "⚠️  Connected but Error: " ++ e'.take 50,
                 database_url := if env'.dbUrlSet then "✅ Set" else "❌ Not Set",
                 database_name := if env'.dbNameSet then "✅ Set" else "❌ Not Set",
                 connection_status := "Connected", collections := [] },
               by simp [test_database, tryCatch, hdb', hl', pure,
                        Except.pure, Functor.map, Except.map,
                        Bind.bind, Except.bind]⟩
  · simp [test_database, tryCatch, hdb, hl, pure, Except.pure,
          Functor.map, Except.map, Bind.bind, Except.bind]

/-- Witness for C8 at a concrete environment whose collection listing
raises. -/
theorem test_endpoint_never_raises_witness :
    (∀ env' : Env, ∃ r, test_database env' = .ok r) ∧
    test_database
      { db := some { name := some "mydb",
                     listCollections := .error "timeout" },
        dbUrlSet := true, dbNameSet := false } = .ok
      { backend := "✅ Running",
        database := "⚠️  Connected but Error: " ++ "timeout".take 50,
        database_url := "✅ Set",
        database_name := "❌ Not Set",
        connection_status := "Connected",
        collections := [] } :=
  test_endpoint_never_raises
    { db := some { name := some "mydb", listCollections := .error "timeout" },
      dbUrlSet := true, dbNameSet := false }
    { name := some "mydb", listCollections := .error "timeout" }
    "timeout" rfl rfl

lemma step_spec (emailOk : String → Bool) (op : Op) (st : Store) :
    ((step emailOk op st).2 = none →
      (step emailOk op st).1.counter = st.counter) ∧
    (∀ id, (step emailOk op st).2 = some id →
      id = genId st.counter ∧
      (step emailOk op st).1.counter = st.counter + 1) := by
  cases op with
  | root => simp [step]
  | hello => simp [step]
  | testProbe => simp [step]
  | schemaQuery => simp [step]
  | reserve p =>
    cases hv : Reservation.validate emailOk p with
    | error errs => simp [step, create_reservation, hv]
    | ok q =>
      cases hre : st.reachable with
      | false => simp [step, create_reservation, hv, create_document, hre]
      | true =>
        simp [step, create_reservation, hv, create_document, hre]
  | event p =>
    cases hv : EventRequest.validate emailOk p with
    | error errs => simp [step, create_event_request, hv]
    | ok q =>
      cases hre : st.reachable with
      | false => simp [step, create_event_request, hv, create_document, hre]
      | true =>
        simp [step, create_event_request, hv, create_document, hre]
  | contact p =>
    cases hv : ContactMessage.validate emailOk p with
    | error errs => simp [step, create_contact_message, hv]
    | ok q =>
      cases hre : st.reachable with
      | false => simp [step, create_contact_message, hv, create_document, hre]
      | true =>
        simp [step, create_contact_message, hv, create_document, hre]
  | testimonials limit =>
    cases hre : st.reachable with
    | false => simp [step, list_testimonials, get_documents, hre]
    | true => simp [step, list_testimonials, get_documents, hre]
  | seedTestimonial t =>
    cases hv : Testimonial.validate t with
    | error errs => simp [step, hv]
    | ok q =>
      cases hre : st.reachable with
      | false => simp [step, hv, create_document, hre]
      | true =>
        simp [step, hv, create_document, hre]

lemma run_spec (emailOk : String → Bool) :
    ∀ (ops : List Op) (st : Store),
      st.counter ≤ (run emailOk ops st).1.counter ∧
      ∀ id ∈ (run emailOk ops st).2, ∃ k, st.counter ≤ k ∧
        k < (run emailOk ops st).1.counter ∧ id = genId k := by
  intro ops
  induction ops with
  | nil => intro st; simp [run]
  | cons op ops ih =>
    intro st
    obtain ⟨hnone, hsome⟩ := step_spec emailOk op st
    obtain ⟨hle, hmem⟩ := ih (step emailOk op st).1
    have hrun : run emailOk (op :: ops) st =
        ((run emailOk ops (step emailOk op st).1).1,
         (step emailOk op st).2.toList ++
           (run emailOk ops (step emailOk op st).1).2) := rfl
    rw [hrun]
    cases hid : (step emailOk op st).2 with
    | none =>
      have hc := hnone hid
      refine ⟨le_trans (le_of_eq hc.symm) hle, ?_⟩
      intro id hmem'
      simp only [Option.toList_none, List.nil_append] at hmem'
      obtain ⟨k, h1, h2, h3⟩ := hmem id hmem'
      exact ⟨k, le_trans (le_of_eq hc.symm) h1, h2, h3⟩
    | some theId =>
      obtain ⟨hval, hc⟩ := hsome theId hid
      rw [hc] at hle
      refine ⟨le_trans (Nat.le_succ _) hle, ?_⟩
      intro id hmem'
      simp only [Option.toList_some, List.cons_append, List.nil_append,
        List.mem_cons] at hmem'
      cases hmem' with
      | inl h =>
        exact ⟨st.counter, le_refl _,
          lt_of_lt_of_le (Nat.lt_succ_self _) hle, h ▸ hval⟩
      | inr h =>
        obtain ⟨k, h1, h2, h3⟩ := hmem id h
        rw [hc] at h1
        exact ⟨k, le_trans (Nat.le_succ _) h1, h2, h3⟩

lemma run_pairwise (emailOk : String → Bool) :
    ∀ (ops : List Op) (st : Store),
      (run emailOk ops st).2.Pairwise (· ≠ ·) := by
  intro ops
  induction ops with
  | nil => intro st; simp [run]
  | cons op ops ih =>
    intro st
    obtain ⟨hnone, hsome⟩ := step_spec emailOk op st
    have hrun : run emailOk (op :: ops) st =
        ((run emailOk ops (step emailOk op st).1).1,
         (step emailOk op st).2.toList ++
           (run emailOk ops (step emailOk op st).1).2) := rfl
    rw [hrun]
    cases hid : (step emailOk op st).2 with
    | none => simpa using ih (step emailOk op st).1
    | some theId =>
      obtain ⟨hval, hc⟩ := hsome theId hid
      obtain ⟨hle, hmem⟩ := run_spec emailOk ops (step emailOk op st).1
      simp only [Option.toList_some, List.cons_append, List.nil_append]
      refine List.Pairwise.cons ?_ (ih (step emailOk op st).1)
      intro id hmem'
      obtain ⟨k, h1, _, h3⟩ := hmem id hmem'
      rw [hval, h3]
      intro hcontra
      have := genId_injective hcontra
      omega

/-- C6: across every sequence of operations on the system, each
identifier returned by a successful insert (of any of the four business
record kinds) is a non-empty string and distinct from every identifier
returned by any other insert of the run — in particular from every prior
one. -/
theorem insert_identifiers_fresh (emailOk : String → Bool)
    (ops : List Op) (st : Store) :
    (run emailOk ops st).2.Pairwise (· ≠ ·) ∧
    ∀ id ∈ (run emailOk ops st).2, id ≠ "" := by
  refine ⟨run_pairwise emailOk ops st, ?_⟩
  intro id hmem
  obtain ⟨k, _, _, h3⟩ := (run_spec emailOk ops st).2 id hmem
  rw [h3]
  exact genId_ne_empty k

/-- C9: the store is append-only under every operation the system
exposes — each step leaves every previously stored document in place
(the new collection contents extend the old), so no update or delete
ever occurs. -/
theorem storage_append_only (emailOk : String → Bool) (op : Op)
    (st : Store) :
    ∃ ext, (step emailOk op st).1.colls = st.colls ++ ext := by
  have hcd : ∀ (c : String) (d : Doc),
      ∃ ext, (create_document c d st).2.colls = st.colls ++ ext := by
    intro c d
    unfold create_document
    by_cases hre : st.reachable
    · exact ⟨[(c, d ++ [("_id", .oid st.counter)])], by simp [hre]⟩
    · exact ⟨[], by simp [hre]⟩
  cases op with
  | root => exact ⟨[], by simp [step]⟩
  | hello => exact ⟨[], by simp [step]⟩
  | testProbe => exact ⟨[], by simp [step]⟩
  | schemaQuery => exact ⟨[], by simp [step]⟩
  | reserve p =>
    cases hv : Reservation.validate emailOk p with
    | error errs => exact ⟨[], by simp [step, create_reservation, hv]⟩
    | ok q =>
      obtain ⟨ext, hext⟩ := hcd "reservation" (Reservation.serialize q)
      refine ⟨ext, ?_⟩
      have hstep : (step emailOk (Op.reserve p) st).1 =
          (create_document "reservation" (Reservation.serialize q) st).2 := by
        cases hcd' : create_document "reservation" (Reservation.serialize q) st with
        | mk r st' => cases r <;> simp [step, create_reservation, hv, hcd']
      rw [hstep]
      exact hext
  | event p =>
    cases hv : EventRequest.validate emailOk p with
    | error errs => exact ⟨[], by simp [step, create_event_request, hv]⟩
    | ok q =>
      obtain ⟨ext, hext⟩ := hcd "eventrequest" (EventRequest.serialize q)
      refine ⟨ext, ?_⟩
      have hstep : (step emailOk (Op.event p) st).1 =
          (create_document "eventrequest" (EventRequest.serialize q) st).2 := by
        cases hcd' : create_document "eventrequest" (EventRequest.serialize q) st with
        | mk r st' => cases r <;> simp [step, create_event_request, hv, hcd']
      rw [hstep]
      exact hext
  | contact p =>
    cases hv : ContactMessage.validate emailOk p with
    | error errs => exact ⟨[], by simp [step, create_contact_message, hv]⟩
    | ok q =>
      obtain ⟨ext, hext⟩ := hcd "contactmessage" (ContactMessage.serialize q)
      refine ⟨ext, ?_⟩
      have hstep : (step emailOk (Op.contact p) st).1 =
          (create_document "contactmessage" (ContactMessage.serialize q) st).2 := by
        cases hcd' : create_document "contactmessage" (ContactMessage.serialize q) st with
        | mk r st' => cases r <;> simp [step, create_contact_message, hv, hcd']
      rw [hstep]
      exact hext
  | testimonials limit =>
    cases hre : st.reachable with
    | false => exact ⟨[], by simp [step, list_testimonials, get_documents, hre]⟩
    | true => exact ⟨[], by simp [step, list_testimonials, get_documents, hre]⟩
  | seedTestimonial t =>
    cases hv : Testimonial.validate t with
    | error errs => exact ⟨[], by simp [step, hv]⟩
    | ok q =>
      obtain ⟨ext, hext⟩ := hcd "testimonial" (Testimonial.serialize q)
      refine ⟨ext, ?_⟩
      have hstep : (step emailOk (Op.seedTestimonial t) st).1 =
          (create_document "testimonial" (Testimonial.serialize q) st).2 := by
        cases hcd' : create_document "testimonial" (Testimonial.serialize q) st with
        | mk r st' => cases r <;> simp [step, hv, hcd']
      rw [hstep]
      exact hext

end LaNonna
